import Mathlib

/-!
# Reconciliation core of the rep: snapshot gatherer and operations

A shallow embedding of `gatherer/snapshot.go` and of the operations exercised
by `generator/operation_test.go`, with the properties of the snapshot
accessors, of snapshot construction and of the three operations.

Conventions of the embedding:

* a Go slice is a `List`; a Go map that may be `nil` is an `Option` of an
  association list read by key (`Tags.get`);
* a Go `error` is `Option error`, `none` being `nil`;
* a Go pointer result that may be `nil` is an `Option`;
* a collaborator behind an interface (store, executor client, container
  delegate, processors) is a record of functions giving its answer to each
  call; the calls an operation makes are recorded in a trace.
-/

set_option autoImplicit false

/-! ## Errors -/

/-- Go `error` values as the code observes them: the store's distinguished
not-found value `bbserrors.ErrStoreResourceNotFound`, which the code compares
by identity; any other error, carrying its message; and the value built by
`fmt.Errorf(format, cause.Error())`, kept as its format and its cause. -/
inductive error where
  | ErrStoreResourceNotFound : error
  | errorString (s : String) : error
  | Errorf (format : String) (cause : error) : error
  deriving DecidableEq, Repr

/-! ## Executor and model types -/

namespace executor

/-- The type `executor.Tags`, a `map[string]string`, as its entries. -/
abbrev Tags := List (String × String)

/-- Map read `tags[key]` with the comma-ok result. -/
def Tags.get (tags : Tags) (key : String) : Option String :=
  (tags.find? (fun kv => kv.1 == key)).map Prod.snd

/-- The fields of `executor.Container` that the core reads: identifier, tags
(a map that may be nil) and the executor-defined state. -/
structure Container where
  Guid : String
  Tags : Option Tags
  State : String
  deriving DecidableEq, Repr

/-- Modelled from the spec: the method `Container.HasTags` of the executor
library, which is not part of the sources. The spec gives it as "containers
whose tags are a superset of the filter (exact key/value match for every
filter entry)": every entry of the filter is read back from the container's
tags with the same value. A container without tags has no entry. -/
def Container.HasTags (c : Container) (tags : executor.Tags) : Bool :=
  tags.all (fun kv => (c.Tags.getD []).get kv.1 == some kv.2)

end executor

namespace models

/-- Task states of the data model. -/
inductive TaskState where
  | Pending | Claimed | Running | Completed | Resolving
  deriving DecidableEq, Repr

/-- The fields of `models.Task` that the core reads. -/
structure Task where
  TaskGuid : String
  CellID : String
  State : TaskState
  deriving DecidableEq, Repr

/-- The composite key `models.ActualLRPKey`. -/
structure ActualLRPKey where
  ProcessGuid : String
  Index : Int
  Domain : String
  deriving DecidableEq, Repr

/-- The container-binding key `models.ActualLRPContainerKey`. -/
structure ActualLRPContainerKey where
  InstanceGuid : String
  CellID : String
  deriving DecidableEq, Repr

/-- A desired-state record `models.ActualLRP`. -/
structure ActualLRP where
  ActualLRPKey : ActualLRPKey
  ActualLRPContainerKey : ActualLRPContainerKey
  deriving DecidableEq, Repr

end models

/-! ## The snapshot gatherer (`gatherer/snapshot.go`) -/

namespace gatherer

open executor models

/-- The methods of `bbs.RepBBS` that the gatherer calls, each as the answer
given to a call: a Go pair of result and error. -/
structure RepBBS where
  ActualLRPsByCellID : String → List ActualLRP × Option error
  TasksByCellID : String → List Task × Option error
  TaskByGuid : String → Option Task × Option error

/-- The method of `executor.Client` that the gatherer calls. -/
structure Client where
  ListContainers : Option Tags → List Container × Option error

/-- The struct `snapshot`. -/
structure snapshot where
  bbs : RepBBS
  cellID : String
  containers : List Container
  actualLRPs : List ActualLRP
  tasks : List Task

/-- The method `ListContainers`: the stored slice for a nil filter, otherwise
the containers passing `HasTags`, appended in iteration order. -/
def snapshot.ListContainers (s : snapshot) (tags : Option Tags) : List Container :=
  match tags with
  | none => s.containers
  | some tags =>
    s.containers.foldl (fun matched c => if c.HasTags tags then matched ++ [c] else matched) []

/-- The loop of `GetContainer` over the remaining containers. -/
def GetContainer.loop (guid : String) : List Container → Option Container × Bool
  | [] => (none, false)
  | c :: rest => if c.Guid = guid then (some c, true) else GetContainer.loop guid rest

/-- The method `GetContainer`. -/
def snapshot.GetContainer (s : snapshot) (guid : String) : Option Container × Bool :=
  GetContainer.loop guid s.containers

/-- The method `ActualLRPs`. -/
def snapshot.ActualLRPs (s : snapshot) : List ActualLRP := s.actualLRPs

/-- The method `Tasks`. -/
def snapshot.Tasks (s : snapshot) : List Task := s.tasks

/-- The first loop of `LookupTask`: the first task of the slice with the guid. -/
def LookupTask.loop (guid : String) : List Task → Option Task
  | [] => none
  | t :: rest => if t.TaskGuid = guid then some t else LookupTask.loop guid rest

/-- The method `LookupTask`. The result is `none` when the code panics, which
it does on dereferencing a nil task returned by the store without an error. -/
def snapshot.LookupTask (s : snapshot) (guid : String) :
    Option (Option Task × Bool × Option error) :=
  match LookupTask.loop guid s.tasks with
  | some t => some (some t, true, none)
  | none =>
    match s.bbs.TaskByGuid guid with
    | (_, some err) =>
      if err = error.ErrStoreResourceNotFound then some (none, false, none)
      else some (none, false, some err)
    | (none, none) => none
    | (some task, none) =>
      if task.CellID ≠ s.cellID then some (none, false, none)
      else some (some task, true, none)

/-- The three goroutines started by `NewSnapshot`, named by the fetch each makes. -/
inductive Fetch where
  | ListContainers | ActualLRPsByCellID | TasksByCellID
  deriving DecidableEq, Repr

/-- What the goroutines of `NewSnapshot` share: the snapshot under
construction and the buffered channel `errChan`, oldest value first. -/
structure NewSnapshot.State where
  snap : snapshot
  errChan : List (Option error)

/-- The body of one goroutine, run to its end: fetch, wrap a non-nil error,
store the fetched collection in the goroutine's own field, send on `errChan`.
The channel holds three values, so the send never blocks. -/
def NewSnapshot.goroutine (cellID : String) (bbs : RepBBS) (executorClient : Client)
    (st : NewSnapshot.State) : Fetch → NewSnapshot.State
  | .ListContainers =>
    let (containers, err) := executorClient.ListContainers none
    let err := match err with
      | some e => some (error.Errorf "snapshot-ListContainers failed: %s" e)
      | none => none
    { snap := { st.snap with containers := containers }, errChan := st.errChan ++ [err] }
  | .ActualLRPsByCellID =>
    let (lrps, err) := bbs.ActualLRPsByCellID cellID
    let err := match err with
      | some e => some (error.Errorf "snapshot-ActualLRPsByCellID failed: %s" e)
      | none => none
    { snap := { st.snap with actualLRPs := lrps }, errChan := st.errChan ++ [err] }
  | .TasksByCellID =>
    let (tasks, err) := bbs.TasksByCellID cellID
    let err := match err with
      | some e => some (error.Errorf "snapshot-TasksByCellID failed: %s" e)
      | none => none
    { snap := { st.snap with tasks := tasks }, errChan := st.errChan ++ [err] }

/-- The receiving loop `for i := 0; i < 3; i++` with `n` rounds left: each
round takes the oldest value of the channel and keeps the first non-nil one.
A round on an empty channel that nobody will send on blocks for ever: `none`. -/
def NewSnapshot.receive : Nat → List (Option error) → Option error → Option (Option error)
  | 0, _, err => some err
  | _ + 1, [], _ => none
  | n + 1, e :: errChan, err =>
    NewSnapshot.receive n errChan (if err = none ∧ e ≠ none then e else err)

/-- The function `NewSnapshot`. `order` is the order in which the goroutines
reach their send, which is the order the channel delivers their errors in.
Each goroutine writes a field of its own before it sends and the loop returns
only after three receives, so the scheduling shows in the result through
`order` alone. -/
def NewSnapshot (cellID : String) (bbs : RepBBS) (executorClient : Client)
    (order : List Fetch) : Option (snapshot × Option error) :=
  let snap : snapshot :=
    { bbs := bbs, cellID := cellID, containers := [], actualLRPs := [], tasks := [] }
  let st := order.foldl (NewSnapshot.goroutine cellID bbs executorClient)
    { snap := snap, errChan := [] }
  (NewSnapshot.receive 3 st.errChan none).map (fun err => (st.snap, err))

/-- Every goroutine is started once: the completion orders are the
arrangements of the three fetches. -/
def NewSnapshot.fetches : List Fetch :=
  [.ListContainers, .ActualLRPsByCellID, .TasksByCellID]

end gatherer

/-! ## The operations (`generator`, exercised by `generator/operation_test.go`) -/

namespace rep

/-- The constants `rep.LifecycleTag`, `rep.LRPLifecycle` and
`rep.TaskLifecycle` that the tests name; their declarations are outside the
sources, so they are taken as given. -/
structure Constants where
  LifecycleTag : String
  LRPLifecycle : String
  TaskLifecycle : String

end rep

namespace generator

open executor models

/-- Modelled from the spec: the constant
`internal.TaskCompletionReasonMissingContainer`, whose declaration is not part
of the sources; the spec gives the fixed reason as "container missing". -/
def TaskCompletionReasonMissingContainer : String := "container missing"

/-- One observable step of an `Execute`: a log event or a call on a
collaborator, with the arguments the tests inspect. `session` is the name of
the session logger passed along. -/
inductive Call where
  | Log (session : String) (event : String)
  | GetContainer (session : String) (guid : String)
  | TaskByGuid (guid : String)
  | FailTask (session : String) (guid : String) (reason : String)
  | RemoveActualLRP (lrpKey : ActualLRPKey) (containerKey : ActualLRPContainerKey)
      (session : String)
  | LRPProcess (session : String) (container : Container)
  | TaskProcess (session : String) (container : Container)
  deriving DecidableEq, Repr

/-- The container delegate: `GetContainer(sessionLogger, id)` answers with a
container and whether it exists. -/
structure ContainerDelegate where
  GetContainer : String → String → Container × Bool

/-- The store as the operations use it: `TaskByGuid(guid)` answers with a task
and an error, `FailTask(sessionLogger, guid, reason)` with an error. The error
of `RemoveActualLRP` is not consulted by the operation and has no field. -/
structure RepBBS where
  TaskByGuid : String → Task × Option error
  FailTask : String → String → String → Option error

/-- The operation built by `NewMissingLRPOperation(logger, bbs,
containerDelegate, lrpKey, containerKey)`; `logger` is the logger's name. -/
structure MissingLRPOperation where
  logger : String
  bbs : RepBBS
  containerDelegate : ContainerDelegate
  ActualLRPKey : ActualLRPKey
  ActualLRPContainerKey : ActualLRPContainerKey

/-- The operation built by `NewMissingTaskOperation(logger, bbs,
containerDelegate, taskGuid)`. -/
structure MissingTaskOperation where
  logger : String
  bbs : RepBBS
  containerDelegate : ContainerDelegate
  TaskGuid : String

/-- The operation built by `NewContainerOperation(logger, lrpProcessor,
taskProcessor, containerDelegate, guid)`. The processors give no answer that
is consulted; their invocations appear in the trace. -/
structure ContainerOperation where
  logger : String
  containerDelegate : ContainerDelegate
  Guid : String

/-- Modelled from the spec: `MissingLRPOperation.Execute`, whose source file
is not part of the sources (only its test is). Spec 4.3: re-check through the
delegate whether a container with the instance guid exists; if it does, skip
with a log event; if not, remove the ActualLRP keyed by both keys. Event and
session names are those the test expects. -/
def MissingLRPOperation.Execute (o : MissingLRPOperation) : List Call :=
  let session := o.logger ++ ".executing-missing-lrp-operation"
  let (_, ok) := o.containerDelegate.GetContainer session o.ActualLRPContainerKey.InstanceGuid
  [Call.Log session "starting",
   Call.GetContainer session o.ActualLRPContainerKey.InstanceGuid]
  ++ (if ok then [Call.Log session "skipped-because-container-exists"]
      else [Call.RemoveActualLRP o.ActualLRPKey o.ActualLRPContainerKey session])
  ++ [Call.Log session "finished"]

/-- Modelled from the spec: `MissingTaskOperation.Execute`, whose source file
is not part of the sources (only its test is). Spec 4.4: re-check through the
delegate whether a container with the guid exists; if it does, skip; if not,
fetch the task by guid; on a fetch failure log and abort; if the state is not
Running skip; if it is Running fail the task with the fixed reason, logging a
failure of that call. -/
def MissingTaskOperation.Execute (o : MissingTaskOperation) : List Call :=
  let session := o.logger ++ ".executing-missing-task-operation"
  let (_, ok) := o.containerDelegate.GetContainer session o.TaskGuid
  [Call.Log session "starting", Call.GetContainer session o.TaskGuid]
  ++ (if ok then [Call.Log session "skipped-because-container-exists"]
      else
        let (task, err) := o.bbs.TaskByGuid o.TaskGuid
        Call.TaskByGuid o.TaskGuid ::
          (match err with
           | some _ => [Call.Log session "failed-to-fetch-task"]
           | none =>
             if task.State ≠ TaskState.Running then
               [Call.Log session "skipped-because-task-is-not-running"]
             else
               Call.FailTask session o.TaskGuid TaskCompletionReasonMissingContainer ::
                 (match o.bbs.FailTask session o.TaskGuid TaskCompletionReasonMissingContainer with
                  | some _ => [Call.Log session "failed-to-fail-task"]
                  | none => [])))
  ++ [Call.Log session "finished"]

/-- Modelled from the spec: `ContainerOperation.Execute`, whose source file is
not part of the sources (only its test is). Spec 4.5: re-check through the
delegate whether the container exists; if not, skip; if it does, read its
lifecycle tag: LRP-backed invokes only the LRP processor, Task-backed only the
task processor, any other value, an absent one included, invokes neither and
logs an unknown-lifecycle failure. -/
def ContainerOperation.Execute (k : rep.Constants) (o : ContainerOperation) : List Call :=
  let session := o.logger ++ ".executing-container-operation"
  let (container, ok) := o.containerDelegate.GetContainer session o.Guid
  [Call.Log session "starting", Call.GetContainer session o.Guid]
  ++ (if ok = false then [Call.Log session "skipped-because-container-does-not-exist"]
      else
        match (container.Tags.getD []).get k.LifecycleTag with
        | some lifecycle =>
          if lifecycle = k.LRPLifecycle then [Call.LRPProcess session container]
          else if lifecycle = k.TaskLifecycle then [Call.TaskProcess session container]
          else [Call.Log session "failed-to-process-container-with-unknown-lifecycle"]
        | none => [Call.Log session "failed-to-process-container-with-unknown-lifecycle"])
  ++ [Call.Log session "finished"]

/-- The `GetContainer` calls of a trace, in order, with their arguments. -/
def getContainerCalls (tr : List Call) : List (String × String) :=
  tr.filterMap (fun c => match c with
    | .GetContainer session guid => some (session, guid)
    | _ => none)

/-- The `TaskByGuid` calls of a trace, in order, with their argument. -/
def taskByGuidCalls (tr : List Call) : List String :=
  tr.filterMap (fun c => match c with
    | .TaskByGuid guid => some guid
    | _ => none)

/-- The `FailTask` calls of a trace, in order, with their arguments. -/
def failTaskCalls (tr : List Call) : List (String × String × String) :=
  tr.filterMap (fun c => match c with
    | .FailTask session guid reason => some (session, guid, reason)
    | _ => none)

/-- The `RemoveActualLRP` calls of a trace, in order, with their arguments. -/
def removeActualLRPCalls (tr : List Call) :
    List (ActualLRPKey × ActualLRPContainerKey × String) :=
  tr.filterMap (fun c => match c with
    | .RemoveActualLRP lrpKey containerKey session => some (lrpKey, containerKey, session)
    | _ => none)

/-- The invocations of the LRP processor in a trace, in order. -/
def lrpProcessCalls (tr : List Call) : List (String × Container) :=
  tr.filterMap (fun c => match c with
    | .LRPProcess session container => some (session, container)
    | _ => none)

/-- The invocations of the task processor in a trace, in order. -/
def taskProcessCalls (tr : List Call) : List (String × Container) :=
  tr.filterMap (fun c => match c with
    | .TaskProcess session container => some (session, container)
    | _ => none)

end generator

/-! ## Concrete inputs -/

namespace gatherer

open executor models

/-- A store, an executor client and a cell used to evaluate the definitions on
a concrete input: the task fetch fails, the other two succeed. -/
def exampleBBS : RepBBS where
  ActualLRPsByCellID := fun _ => ([⟨⟨"p", 0, "d"⟩, ⟨"i1", "c1"⟩⟩], none)
  TasksByCellID := fun _ => ([], some (.errorString "boom"))
  TaskByGuid := fun guid =>
    if guid = "t2" then (some ⟨"t2", "c1", .Running⟩, none)
    else (none, some .ErrStoreResourceNotFound)

/-- The executor client of the concrete input. -/
def exampleClient : Client where
  ListContainers := fun _ => ([⟨"g1", none, "running"⟩], none)

/-- A snapshot used to evaluate the accessors on a concrete input. -/
def exampleSnapshot : snapshot where
  bbs := exampleBBS
  cellID := "c1"
  containers :=
    [⟨"g1", none, "running"⟩,
     ⟨"g2", some [("lifecycle", "lrp"), ("domain", "d")], "running"⟩,
     ⟨"g3", some [("lifecycle", "task")], "created"⟩,
     ⟨"g2", some [("lifecycle", "lrp")], "completed"⟩]
  actualLRPs := [⟨⟨"p", 0, "d"⟩, ⟨"i1", "c1"⟩⟩]
  tasks := [⟨"t1", "c1", .Running⟩, ⟨"t3", "c1", .Pending⟩, ⟨"t1", "c1", .Completed⟩]

end gatherer

namespace generator

open executor models

/-- A delegate that knows no container. -/
def absentDelegate : ContainerDelegate where
  GetContainer := fun _ _ => (⟨"", none, ""⟩, false)

/-- A delegate that answers every guid with a container tagged with the
lifecycle "lrp". -/
def lrpDelegate : ContainerDelegate where
  GetContainer := fun _ guid => (⟨guid, some [("lifecycle", "lrp")], "running"⟩, true)

/-- A store whose tasks are all Running and whose `FailTask` fails. -/
def runningBBS : RepBBS where
  TaskByGuid := fun guid => (⟨guid, "c1", .Running⟩, none)
  FailTask := fun _ _ _ => some (.errorString "failed")

/-- The constants of package `rep` used on concrete inputs. -/
def exampleConstants : rep.Constants where
  LifecycleTag := "lifecycle"
  LRPLifecycle := "lrp"
  TaskLifecycle := "task"

end generator

/-! ## Properties of the snapshot gatherer -/

namespace gatherer

open executor models

theorem NewSnapshot.order_cases (order : List Fetch) (h : order.Perm NewSnapshot.fetches) :
    order = [.ListContainers, .ActualLRPsByCellID, .TasksByCellID] ∨
    order = [.ListContainers, .TasksByCellID, .ActualLRPsByCellID] ∨
    order = [.ActualLRPsByCellID, .ListContainers, .TasksByCellID] ∨
    order = [.ActualLRPsByCellID, .TasksByCellID, .ListContainers] ∨
    order = [.TasksByCellID, .ListContainers, .ActualLRPsByCellID] ∨
    order = [.TasksByCellID, .ActualLRPsByCellID, .ListContainers] := by
  have hlen := h.length_eq
  match order, hlen with
  | [a, b, c], _ =>
    revert h
    cases a <;> cases b <;> cases c <;> simp [NewSnapshot.fetches] <;> decide

/-- C1: for every outcome of the three fetches and every order in which the
three goroutines report, `NewSnapshot` returns, and its error is nil exactly
when all three fetches returned a nil error. -/
theorem NewSnapshot_error_nil_iff_all_succeed (cellID : String) (bbs : RepBBS)
    (executorClient : Client) (order : List Fetch)
    (h : order.Perm NewSnapshot.fetches) :
    ∃ snap err, NewSnapshot cellID bbs executorClient order = some (snap, err) ∧
      (err = none ↔
        (executorClient.ListContainers none).2 = none ∧
        (bbs.ActualLRPsByCellID cellID).2 = none ∧
        (bbs.TasksByCellID cellID).2 = none) := by
  rcases hc : executorClient.ListContainers none with ⟨cs, _ | e1⟩ <;>
    rcases hl : bbs.ActualLRPsByCellID cellID with ⟨ls, _ | e2⟩ <;>
    rcases ht : bbs.TasksByCellID cellID with ⟨ts, _ | e3⟩ <;>
    rcases NewSnapshot.order_cases order h with h | h | h | h | h | h <;> subst h <;>
    simp [NewSnapshot, NewSnapshot.goroutine, NewSnapshot.receive, hc, hl, ht] <;>
    exact ⟨_, _, ⟨rfl, rfl⟩, by simp⟩

/-- C1 at a concrete input: the task fetch fails and reports first. -/
theorem NewSnapshot_error_nil_iff_all_succeed_witness :
    [Fetch.TasksByCellID, Fetch.ListContainers, Fetch.ActualLRPsByCellID].Perm
        NewSnapshot.fetches ∧
    ∃ snap err,
      NewSnapshot "c1" exampleBBS exampleClient
        [Fetch.TasksByCellID, Fetch.ListContainers, Fetch.ActualLRPsByCellID] =
          some (snap, err) ∧
      (err = none ↔
        (exampleClient.ListContainers none).2 = none ∧
        (exampleBBS.ActualLRPsByCellID "c1").2 = none ∧
        (exampleBBS.TasksByCellID "c1").2 = none) :=
  ⟨by decide, NewSnapshot_error_nil_iff_all_succeed "c1" exampleBBS exampleClient _ (by decide)⟩

/-- C2: for every outcome of the three fetches and every order in which the
three goroutines report, each collection of the returned snapshot is exactly
the collection its own source returned, whatever the errors of the three
fetches are. -/
theorem NewSnapshot_fields_from_own_source (cellID : String) (bbs : RepBBS)
    (executorClient : Client) (order : List Fetch)
    (h : order.Perm NewSnapshot.fetches) :
    ∃ snap err, NewSnapshot cellID bbs executorClient order = some (snap, err) ∧
      snap.containers = (executorClient.ListContainers none).1 ∧
      snap.ListContainers none = (executorClient.ListContainers none).1 ∧
      snap.ActualLRPs = (bbs.ActualLRPsByCellID cellID).1 ∧
      snap.Tasks = (bbs.TasksByCellID cellID).1 := by
  rcases NewSnapshot.order_cases order h with h | h | h | h | h | h <;> subst h <;>
    exact ⟨_, _, rfl, rfl, rfl, rfl, rfl⟩

/-- C2 at a concrete input: the task fetch fails, and the containers and the
ActualLRPs of the snapshot are those their sources returned. -/
theorem NewSnapshot_fields_from_own_source_witness :
    [Fetch.ActualLRPsByCellID, Fetch.TasksByCellID, Fetch.ListContainers].Perm
        NewSnapshot.fetches ∧
    ∃ snap err,
      NewSnapshot "c1" exampleBBS exampleClient
        [Fetch.ActualLRPsByCellID, Fetch.TasksByCellID, Fetch.ListContainers] =
          some (snap, err) ∧
      snap.containers = (exampleClient.ListContainers none).1 ∧
      snap.ListContainers none = (exampleClient.ListContainers none).1 ∧
      snap.ActualLRPs = (exampleBBS.ActualLRPsByCellID "c1").1 ∧
      snap.Tasks = (exampleBBS.TasksByCellID "c1").1 :=
  ⟨by decide, NewSnapshot_fields_from_own_source "c1" exampleBBS exampleClient _ (by decide)⟩

theorem LookupTask.loop_eq_none (guid : String) (tasks : List Task)
    (h : ∀ t ∈ tasks, t.TaskGuid ≠ guid) : LookupTask.loop guid tasks = none := by
  induction tasks with
  | nil => rfl
  | cons t rest ih =>
    have ht : t.TaskGuid ≠ guid := h t (List.mem_cons_self _ _)
    simp only [LookupTask.loop, ht, if_false]
    exact ih (fun u hu => h u (List.mem_cons_of_mem _ hu))

theorem LookupTask.loop_first (guid : String) (tasks : List Task)
    (h : ∃ t ∈ tasks, t.TaskGuid = guid) :
    ∃ t before after, LookupTask.loop guid tasks = some t ∧ t.TaskGuid = guid ∧
      tasks = before ++ t :: after ∧ ∀ u ∈ before, u.TaskGuid ≠ guid := by
  induction tasks with
  | nil => simp at h
  | cons t rest ih =>
    by_cases ht : t.TaskGuid = guid
    · exact ⟨t, [], rest, by simp [LookupTask.loop, ht], ht, rfl, by simp⟩
    · have h' : ∃ u ∈ rest, u.TaskGuid = guid := by
        obtain ⟨u, hu, hg⟩ := h
        rcases List.mem_cons.mp hu with rfl | hu
        · exact absurd hg ht
        · exact ⟨u, hu, hg⟩
      obtain ⟨u, before, after, hl, hg, hsplit, hbefore⟩ := ih h'
      refine ⟨u, t :: before, after, by simp [LookupTask.loop, ht, hl], hg, by simp [hsplit], ?_⟩
      intro v hv
      rcases List.mem_cons.mp hv with rfl | hv
      · exact ht
      · exact hbefore v hv

/-- C3: when no task of the snapshot has the guid, `LookupTask` is decided by
the store's answer to `TaskByGuid`: the not-found error gives (nil, false,
nil); any other error `e` gives (nil, false, `e`); a task of another cell
gives (nil, false, nil); a task of the snapshot's cell gives (that task,
true, nil). -/
theorem LookupTask_miss_follows_store (s : snapshot) (guid : String)
    (h : ∀ t ∈ s.tasks, t.TaskGuid ≠ guid) :
    (∀ task, s.bbs.TaskByGuid guid = (task, some error.ErrStoreResourceNotFound) →
      s.LookupTask guid = some (none, false, none)) ∧
    (∀ task e, e ≠ error.ErrStoreResourceNotFound →
      s.bbs.TaskByGuid guid = (task, some e) →
      s.LookupTask guid = some (none, false, some e)) ∧
    (∀ task, s.bbs.TaskByGuid guid = (some task, none) → task.CellID ≠ s.cellID →
      s.LookupTask guid = some (none, false, none)) ∧
    (∀ task, s.bbs.TaskByGuid guid = (some task, none) → task.CellID = s.cellID →
      s.LookupTask guid = some (some task, true, none)) := by
  have hloop := LookupTask.loop_eq_none guid s.tasks h
  refine ⟨?_, ?_, ?_, ?_⟩
  · intro task hs
    simp [snapshot.LookupTask, hloop, hs]
  · intro task e he hs
    simp [snapshot.LookupTask, hloop, hs, he]
  · intro task hs hc
    simp [snapshot.LookupTask, hloop, hs, hc]
  · intro task hs hc
    simp [snapshot.LookupTask, hloop, hs, hc]

/-- C3 at a concrete input: guid "t2" is in no task of the snapshot and the
store holds it for the snapshot's cell. -/
theorem LookupTask_miss_follows_store_witness :
    (∀ t ∈ exampleSnapshot.tasks, t.TaskGuid ≠ "t2") ∧
    exampleSnapshot.LookupTask "t2" = some (some ⟨"t2", "c1", .Running⟩, true, none) :=
  ⟨by decide,
   (LookupTask_miss_follows_store exampleSnapshot "t2" (by decide)).2.2.2
     ⟨"t2", "c1", .Running⟩ rfl rfl⟩

/-- C4: when some task of the snapshot has the guid, `LookupTask` returns the
first such task with found = true and a nil error, and the result is the same
whatever store the snapshot holds. -/
theorem LookupTask_hit_ignores_store (s : snapshot) (guid : String)
    (h : ∃ t ∈ s.tasks, t.TaskGuid = guid) :
    ∃ t before after, s.LookupTask guid = some (some t, true, none) ∧
      t.TaskGuid = guid ∧
      s.tasks = before ++ t :: after ∧ (∀ u ∈ before, u.TaskGuid ≠ guid) ∧
      ∀ bbs : RepBBS, ({ s with bbs := bbs } : snapshot).LookupTask guid =
        some (some t, true, none) := by
  obtain ⟨t, before, after, hl, hg, hsplit, hbefore⟩ := LookupTask.loop_first guid s.tasks h
  refine ⟨t, before, after, by simp [snapshot.LookupTask, hl], hg, hsplit, hbefore, ?_⟩
  intro bbs
  simp [snapshot.LookupTask, hl]

/-- C4 at a concrete input: guid "t1" is held by two tasks of the snapshot. -/
theorem LookupTask_hit_ignores_store_witness :
    (∃ t ∈ exampleSnapshot.tasks, t.TaskGuid = "t1") ∧
    ∃ t before after, exampleSnapshot.LookupTask "t1" = some (some t, true, none) ∧
      t.TaskGuid = "t1" ∧
      exampleSnapshot.tasks = before ++ t :: after ∧ (∀ u ∈ before, u.TaskGuid ≠ "t1") ∧
      ∀ bbs : RepBBS, ({ exampleSnapshot with bbs := bbs } : snapshot).LookupTask "t1" =
        some (some t, true, none) :=
  ⟨by decide, LookupTask_hit_ignores_store exampleSnapshot "t1" (by decide)⟩

theorem ListContainers.matched_eq (tags : Tags) (containers matched : List Container) :
    containers.foldl (fun matched c => if c.HasTags tags then matched ++ [c] else matched)
        matched =
      matched ++ containers.filter (fun c => c.HasTags tags) := by
  induction containers generalizing matched with
  | nil => simp
  | cons c rest ih =>
    by_cases hc : c.HasTags tags = true
    · simp [List.foldl, List.filter, hc, ih]
    · simp [List.foldl, List.filter, hc, ih]

theorem ListContainers.some_eq_filter (s : snapshot) (tags : Tags) :
    s.ListContainers (some tags) = s.containers.filter (fun c => c.HasTags tags) := by
  simp [snapshot.ListContainers, ListContainers.matched_eq]

theorem Container.HasTags_iff (c : Container) (tags : Tags) :
    c.HasTags tags = true ↔
      ∀ kv ∈ tags, (c.Tags.getD []).get kv.1 = some kv.2 := by
  simp [Container.HasTags, List.all_eq_true]

/-- C5: for a non-empty filter, `ListContainers` returns the containers of the
snapshot whose tags hold every entry of the filter with the same value: the
result is the snapshot's containers with the others struck out, so it keeps
the stored order; a matching container occurs as often as in the snapshot and
a container failing the filter does not occur. -/
theorem ListContainers_filter_superset (s : snapshot) (tags : Tags) (_h : tags ≠ []) :
    s.ListContainers (some tags) = s.containers.filter (fun c => c.HasTags tags) ∧
    (s.ListContainers (some tags)).Sublist s.containers ∧
    (∀ c : Container, (∀ kv ∈ tags, (c.Tags.getD []).get kv.1 = some kv.2) →
      (s.ListContainers (some tags)).count c = s.containers.count c) ∧
    (∀ c : Container, ¬ (∀ kv ∈ tags, (c.Tags.getD []).get kv.1 = some kv.2) →
      c ∉ s.ListContainers (some tags)) := by
  rw [ListContainers.some_eq_filter]
  refine ⟨rfl, List.filter_sublist _, ?_, ?_⟩
  · intro c hc
    have hp : c.HasTags tags = true := (Container.HasTags_iff c tags).mpr hc
    exact List.count_filter (p := fun c => c.HasTags tags) (l := s.containers) hp
  · intro c hc hmem
    exact hc ((Container.HasTags_iff c tags).mp (List.mem_filter.mp hmem).2)

/-- C5 at a concrete input: the filter lifecycle = lrp keeps the two
containers "g2" in their stored order. -/
theorem ListContainers_filter_superset_witness :
    ([("lifecycle", "lrp")] : Tags) ≠ [] ∧
    exampleSnapshot.ListContainers (some [("lifecycle", "lrp")]) =
      [⟨"g2", some [("lifecycle", "lrp"), ("domain", "d")], "running"⟩,
       ⟨"g2", some [("lifecycle", "lrp")], "completed"⟩] :=
  ⟨by decide,
   (ListContainers_filter_superset exampleSnapshot [("lifecycle", "lrp")] (by decide)).1.trans
     (by decide)⟩

theorem GetContainer.loop_spec (guid : String) (containers : List Container) :
    (∃ c before after, GetContainer.loop guid containers = (some c, true) ∧ c.Guid = guid ∧
      containers = before ++ c :: after ∧ ∀ d ∈ before, d.Guid ≠ guid) ∨
    (GetContainer.loop guid containers = (none, false) ∧
      ∀ d ∈ containers, d.Guid ≠ guid) := by
  induction containers with
  | nil => exact Or.inr ⟨rfl, by simp⟩
  | cons c rest ih =>
    by_cases hc : c.Guid = guid
    · exact Or.inl ⟨c, [], rest, by simp [GetContainer.loop, hc], hc, rfl, by simp⟩
    · rcases ih with ⟨d, before, after, hl, hg, hsplit, hbefore⟩ | ⟨hl, hnone⟩
      · refine Or.inl ⟨d, c :: before, after, by simp [GetContainer.loop, hc, hl], hg,
          by simp [hsplit], ?_⟩
        intro e he
        rcases List.mem_cons.mp he with rfl | he
        · exact hc
        · exact hbefore e he
      · refine Or.inr ⟨by simp [GetContainer.loop, hc, hl], ?_⟩
        intro e he
        rcases List.mem_cons.mp he with rfl | he
        · exact hc
        · exact hnone e he

/-- C6: `GetContainer` reports found exactly when some container of the
snapshot has the guid; when found, the container returned has the guid and is
the first such container of the collection; when not found, no container is
returned. -/
theorem GetContainer_found_iff_first_match (s : snapshot) (guid : String) :
    ((s.GetContainer guid).2 = true ↔ ∃ c ∈ s.containers, c.Guid = guid) ∧
    ((s.GetContainer guid).2 = true →
      ∃ c before after, s.GetContainer guid = (some c, true) ∧ c.Guid = guid ∧
        s.containers = before ++ c :: after ∧ ∀ d ∈ before, d.Guid ≠ guid) ∧
    ((s.GetContainer guid).2 = false → s.GetContainer guid = (none, false)) := by
  unfold snapshot.GetContainer
  rcases GetContainer.loop_spec guid s.containers with
    ⟨c, before, after, hl, hg, hsplit, hbefore⟩ | ⟨hl, hnone⟩
  · refine ⟨?_, ?_, ?_⟩
    · rw [hl]
      exact ⟨fun _ => ⟨c, by simp [hsplit], hg⟩, fun _ => rfl⟩
    · intro _
      exact ⟨c, before, after, hl, hg, hsplit, hbefore⟩
    · rw [hl]
      intro hf
      simp at hf
  · refine ⟨?_, ?_, ?_⟩
    · rw [hl]
      constructor
      · intro hf
        simp at hf
      · rintro ⟨d, hd, hg⟩
        exact absurd hg (hnone d hd)
    · rw [hl]
      intro hf
      simp at hf
    · intro _
      exact hl

/-- C7: with a nil filter or with an empty non-nil filter `ListContainers`
returns all the containers of the snapshot in their stored order; a container
without tags is among them. -/
theorem ListContainers_nil_or_empty_all (s : snapshot) :
    s.ListContainers none = s.containers ∧
    s.ListContainers (some []) = s.containers ∧
    (∀ c ∈ s.containers, c.Tags = none →
      c ∈ s.ListContainers none ∧ c ∈ s.ListContainers (some [])) := by
  have hempty : s.ListContainers (some []) = s.containers := by
    rw [ListContainers.some_eq_filter]
    simp [Container.HasTags]
  refine ⟨rfl, hempty, ?_⟩
  intro c hc _
  rw [hempty]
  exact ⟨hc, hc⟩

end gatherer

/-! ## Properties of the operations -/

namespace generator

open executor models

/-- C8: one `Execute` of a Missing-Task operation calls fail-task exactly once,
with the operation's guid and the fixed missing-container reason, when the
delegate reports no container and the store returns the task without error in
state Running; in every other case it calls fail-task zero times; and when the
container exists it does not fetch the task. -/
theorem MissingTask_Execute_failTask_calls (o : MissingTaskOperation) :
    failTaskCalls o.Execute =
      (if (o.containerDelegate.GetContainer
              (o.logger ++ ".executing-missing-task-operation") o.TaskGuid).2 = false ∧
          (o.bbs.TaskByGuid o.TaskGuid).2 = none ∧
          (o.bbs.TaskByGuid o.TaskGuid).1.State = TaskState.Running
       then [(o.logger ++ ".executing-missing-task-operation", o.TaskGuid,
              TaskCompletionReasonMissingContainer)]
       else []) ∧
    ((o.containerDelegate.GetContainer
          (o.logger ++ ".executing-missing-task-operation") o.TaskGuid).2 = true →
      taskByGuidCalls o.Execute = []) := by
  rcases hd : o.containerDelegate.GetContainer
      (o.logger ++ ".executing-missing-task-operation") o.TaskGuid with ⟨c, _ | _⟩
  · rcases ht : o.bbs.TaskByGuid o.TaskGuid with ⟨task, _ | e⟩
    · by_cases hs : task.State = TaskState.Running
      · cases hf : o.bbs.FailTask (o.logger ++ ".executing-missing-task-operation")
            o.TaskGuid TaskCompletionReasonMissingContainer <;>
          simp [MissingTaskOperation.Execute, failTaskCalls, taskByGuidCalls, hd, ht, hs, hf]
      · simp [MissingTaskOperation.Execute, failTaskCalls, taskByGuidCalls, hd, ht, hs]
    · simp [MissingTaskOperation.Execute, failTaskCalls, taskByGuidCalls, hd, ht]
  · simp [MissingTaskOperation.Execute, failTaskCalls, taskByGuidCalls, hd]

/-- C9: one `Execute` of a Missing-LRP operation asks the delegate exactly once,
for the instance guid of the container key, and calls remove-ActualLRP exactly
once with the operation's two keys when the delegate reports no container,
zero times when it reports one. -/
theorem MissingLRP_Execute_calls (o : MissingLRPOperation) :
    getContainerCalls o.Execute =
      [(o.logger ++ ".executing-missing-lrp-operation",
        o.ActualLRPContainerKey.InstanceGuid)] ∧
    removeActualLRPCalls o.Execute =
      (if (o.containerDelegate.GetContainer
              (o.logger ++ ".executing-missing-lrp-operation")
              o.ActualLRPContainerKey.InstanceGuid).2 = false
       then [(o.ActualLRPKey, o.ActualLRPContainerKey,
              o.logger ++ ".executing-missing-lrp-operation")]
       else []) := by
  rcases hd : o.containerDelegate.GetContainer
      (o.logger ++ ".executing-missing-lrp-operation")
      o.ActualLRPContainerKey.InstanceGuid with ⟨c, _ | _⟩ <;>
    simp [MissingLRPOperation.Execute, getContainerCalls, removeActualLRPCalls, hd]

/-- C10: one `Execute` of a Container operation invokes the LRP processor
exactly once, with the delegate's container, and the task processor not at all
when the container exists with the LRP lifecycle tag; the task processor
exactly once with that container and the LRP processor not at all when the tag
is the Task lifecycle; and neither processor when the container does not exist
or its lifecycle tag is absent or has another value. The two lifecycle
constants are distinct. -/
theorem Container_Execute_processor_calls (k : rep.Constants) (o : ContainerOperation)
    (hk : k.LRPLifecycle ≠ k.TaskLifecycle) :
    (∀ container,
      o.containerDelegate.GetContainer (o.logger ++ ".executing-container-operation")
          o.Guid = (container, true) →
      (container.Tags.getD []).get k.LifecycleTag = some k.LRPLifecycle →
      lrpProcessCalls (o.Execute k) =
          [(o.logger ++ ".executing-container-operation", container)] ∧
        taskProcessCalls (o.Execute k) = []) ∧
    (∀ container,
      o.containerDelegate.GetContainer (o.logger ++ ".executing-container-operation")
          o.Guid = (container, true) →
      (container.Tags.getD []).get k.LifecycleTag = some k.TaskLifecycle →
      taskProcessCalls (o.Execute k) =
          [(o.logger ++ ".executing-container-operation", container)] ∧
        lrpProcessCalls (o.Execute k) = []) ∧
    (∀ container ok,
      o.containerDelegate.GetContainer (o.logger ++ ".executing-container-operation")
          o.Guid = (container, ok) →
      (ok = false ∨
        ((container.Tags.getD []).get k.LifecycleTag ≠ some k.LRPLifecycle ∧
         (container.Tags.getD []).get k.LifecycleTag ≠ some k.TaskLifecycle)) →
      lrpProcessCalls (o.Execute k) = [] ∧ taskProcessCalls (o.Execute k) = []) := by
  refine ⟨?_, ?_, ?_⟩
  · intro container hd htag
    simp [ContainerOperation.Execute, lrpProcessCalls, taskProcessCalls, hd, htag]
  · intro container hd htag
    simp [ContainerOperation.Execute, lrpProcessCalls, taskProcessCalls, hd, htag, hk.symm]
  · intro container ok hd hcase
    rcases hcase with hok | ⟨hl, ht⟩
    · subst hok
      simp [ContainerOperation.Execute, lrpProcessCalls, taskProcessCalls, hd]
    · cases ok
      · simp [ContainerOperation.Execute, lrpProcessCalls, taskProcessCalls, hd]
      · cases htag : (container.Tags.getD []).get k.LifecycleTag with
        | none =>
          simp [ContainerOperation.Execute, lrpProcessCalls, taskProcessCalls, hd, htag]
        | some lifecycle =>
          have h1 : lifecycle ≠ k.LRPLifecycle := fun h => hl (by rw [htag, h])
          have h2 : lifecycle ≠ k.TaskLifecycle := fun h => ht (by rw [htag, h])
          simp [ContainerOperation.Execute, lrpProcessCalls, taskProcessCalls, hd, htag,
            h1, h2]

/-- C10 at a concrete input: the container "g1" exists with the LRP lifecycle
tag. -/
theorem Container_Execute_processor_calls_witness :
    exampleConstants.LRPLifecycle ≠ exampleConstants.TaskLifecycle ∧
    lrpProcessCalls (ContainerOperation.Execute exampleConstants ⟨"test", lrpDelegate, "g1"⟩) =
        [("test.executing-container-operation",
          ⟨"g1", some [("lifecycle", "lrp")], "running"⟩)] ∧
      taskProcessCalls (ContainerOperation.Execute exampleConstants
        ⟨"test", lrpDelegate, "g1"⟩) = [] :=
  ⟨by decide,
   (Container_Execute_processor_calls exampleConstants ⟨"test", lrpDelegate, "g1"⟩
      (by decide)).1 ⟨"g1", some [("lifecycle", "lrp")], "running"⟩ rfl rfl⟩

/-- The Missing-LRP scenario of the test: the delegate reports no container
"the-instance-guid", and the operation removes the ActualLRP. -/
theorem MissingLRP_Execute_scenario_container_absent :
    MissingLRPOperation.Execute
        ⟨"test", runningBBS, absentDelegate, ⟨"the-process-guid", 0, "the-domain"⟩,
          ⟨"the-instance-guid", "the-cell-id"⟩⟩ =
      [Call.Log "test.executing-missing-lrp-operation" "starting",
       Call.GetContainer "test.executing-missing-lrp-operation" "the-instance-guid",
       Call.RemoveActualLRP ⟨"the-process-guid", 0, "the-domain"⟩
         ⟨"the-instance-guid", "the-cell-id"⟩ "test.executing-missing-lrp-operation",
       Call.Log "test.executing-missing-lrp-operation" "finished"] := by
  decide

/-- The Missing-Task scenario of the test: no container "the-task-guid", the
task is Running and failing it fails. -/
theorem MissingTask_Execute_scenario_running :
    MissingTaskOperation.Execute ⟨"test", runningBBS, absentDelegate, "the-task-guid"⟩ =
      [Call.Log "test.executing-missing-task-operation" "starting",
       Call.GetContainer "test.executing-missing-task-operation" "the-task-guid",
       Call.TaskByGuid "the-task-guid",
       Call.FailTask "test.executing-missing-task-operation" "the-task-guid"
         "container missing",
       Call.Log "test.executing-missing-task-operation" "failed-to-fail-task",
       Call.Log "test.executing-missing-task-operation" "finished"] := by
  decide

/-- The Missing-Task scenario of the test in which the container exists: the
task is neither fetched nor failed. -/
theorem MissingTask_Execute_scenario_container_exists :
    MissingTaskOperation.Execute ⟨"test", runningBBS, lrpDelegate, "the-task-guid"⟩ =
      [Call.Log "test.executing-missing-task-operation" "starting",
       Call.GetContainer "test.executing-missing-task-operation" "the-task-guid",
       Call.Log "test.executing-missing-task-operation" "skipped-because-container-exists",
       Call.Log "test.executing-missing-task-operation" "finished"] := by
  decide

end generator
